import Mathlib

/-!
Shallow embedding of the clarity-capacitor-plugin operation gateways.

The repository exposes five operations (initialize, setCustomTag, logEvent,
getCurrentSessionId, getCurrentSessionUrl) on three platforms:

* the TypeScript web stub (src/src/web.ts) together with the shared
  validators (src/src/definitions.ts),
* the iOS gateway (src/ios/Plugin/ClarityPlugin.swift),
* the Android gateway
  (src/android/src/main/java/com/yourcompany/plugins/clarity/ClarityPlugin.java).

Each gateway is a validation-then-delegate wrapper around an opaque vendor
SDK and a single boolean flag isInitialized.  We embed each platform
operation as a pure function from the call options, the current flag and an
abstract vendor environment to an OpResult: the outcome delivered to the
caller, the new flag, and the list of vendor SDK calls performed.

Strings are modelled at the character-list level: trim removes ASCII
whitespace at both ends (the model of String.prototype.trim,
trimmingCharacters(in: .whitespacesAndNewlines) and String.trim), and the
anchored regular expressions of the source are modelled as predicates over
the trimmed character list.  Option String models a possibly absent bridge
argument (call.getString returning nil / null / undefined).
-/

namespace ClarityPlugin

/-- ASCII whitespace, the model of the characters removed by trim on every
platform. -/
def isSpaceChar (c : Char) : Bool :=
  c == ' ' || c == '\t' || c == '\n' || c == '\r'

/-- Trim: drop ASCII whitespace from both ends of the character list. -/
def jsTrim (s : String) : List Char :=
  ((s.data.dropWhile isSpaceChar).reverse.dropWhile isSpaceChar).reverse

/-- Character class of the project id pattern [a-zA-Z0-9-]. -/
def isProjectIdChar (c : Char) : Bool :=
  c.isAlpha || c.isDigit || c == '-'

/-- Character class of the tag key / event name tail [a-zA-Z0-9_]. -/
def isTagKeyTailChar (c : Char) : Bool :=
  c.isAlpha || c.isDigit || c == '_'

/-- Model of the anchored regex match for the pattern
    [a-zA-Z0-9-] repeated 8 to 16 times, over a trimmed character list. -/
def matchesProjectIdPattern (t : List Char) : Bool :=
  8 ≤ t.length && t.length ≤ 16 && t.all isProjectIdChar

/-- Model of the anchored regex match for a leading letter followed by 0 to
    63 characters from [a-zA-Z0-9_], over a trimmed character list. -/
def matchesTagKeyPattern (t : List Char) : Bool :=
  match t with
  | [] => false
  | c :: rest => c.isAlpha && rest.length ≤ 63 && rest.all isTagKeyTailChar

/-! ### Shared TypeScript validators (src/src/definitions.ts)

The none case models a null / undefined / non-string argument, rejected by
the typeof and falsiness checks of the source; the empty string is rejected
by the falsiness check before trimming. -/

/-- isValidProjectId of src/src/definitions.ts. -/
def isValidProjectId (projectId : Option String) : Bool :=
  match projectId with
  | none => false
  | some s => if s == "" then false else matchesProjectIdPattern (jsTrim s)

/-- isValidTagKey of src/src/definitions.ts. -/
def isValidTagKey (key : Option String) : Bool :=
  match key with
  | none => false
  | some s => if s == "" then false else matchesTagKeyPattern (jsTrim s)

/-- isValidTagValue of src/src/definitions.ts: any string of length at most
    1024; only null / undefined / non-string rejected, empty allowed. -/
def isValidTagValue (value : Option String) : Bool :=
  match value with
  | none => false
  | some s => s.length ≤ 1024

/-- isValidEventName of src/src/definitions.ts; same body as isValidTagKey. -/
def isValidEventName (eventName : Option String) : Bool :=
  match eventName with
  | none => false
  | some s => if s == "" then false else matchesTagKeyPattern (jsTrim s)

/-! ### Swift validators (src/ios/Plugin/ClarityPlugin.swift)

These take a plain String: nil arguments are already rejected by the guard
let bindings of the calling methods. -/

/-- isValidProjectId of ClarityPlugin.swift. -/
def swiftIsValidProjectId (projectId : String) : Bool :=
  matchesProjectIdPattern (jsTrim projectId)

/-- isValidTagKey of ClarityPlugin.swift: explicit emptiness and length
    pre-checks, then the regex. -/
def swiftIsValidTagKey (key : String) : Bool :=
  let trimmed := jsTrim key
  if trimmed.length == 0 || 64 < trimmed.length then false
  else matchesTagKeyPattern trimmed

/-- isValidTagValue of ClarityPlugin.swift. -/
def swiftIsValidTagValue (value : String) : Bool :=
  value.length ≤ 1024

/-- isValidEventName of ClarityPlugin.swift; same body as swiftIsValidTagKey. -/
def swiftIsValidEventName (eventName : String) : Bool :=
  let trimmed := jsTrim eventName
  if trimmed.length == 0 || 64 < trimmed.length then false
  else matchesTagKeyPattern trimmed

/-! ### Outcomes, vendor environment and operation results -/

/-- Classification of a rejected call, following the error taxonomy of the
spec: each gateway rejects with a fixed message whose kind is evident from
its text. -/
inductive ErrKind where
  | invalidInput
  | notInitialized
  | initializationFailure
  | delegateFailure
deriving DecidableEq, Repr

/-- The outcome delivered to the caller: a resolved value or a rejection
carrying its kind and the verbatim message of the source. -/
inductive Outcome (α : Type) where
  | resolve (value : α)
  | reject (kind : ErrKind) (msg : String)
deriving DecidableEq, Repr

/-- The kind of a rejection; none for a resolved outcome. -/
def outcomeClass {α : Type} : Outcome α → Option ErrKind
  | .resolve _ => none
  | .reject k _ => some k

/-- Whether an outcome is a rejection. -/
def Outcome.isReject {α : Type} : Outcome α → Bool
  | .resolve _ => false
  | .reject _ _ => true

/-- A call into the opaque vendor SDK, recorded with its arguments. -/
inductive VendorCall where
  | initializeSDK (projectId : String)
  | setCustomTag (key value : String)
  | getCurrentSessionId
  | getCurrentSessionUrl
deriving DecidableEq, Repr

/-- Abstract environment describing how the opaque vendor SDK behaves on
this invocation: whether each entry point succeeds, and what the session
queries return (none models a nil / null vendor result). -/
structure Vendor where
  initOk : Bool
  tagOk : Bool
  queryOk : Bool
  sessionId : Option String
  sessionUrl : Option String
deriving DecidableEq, Repr

/-- A vendor environment in which every call succeeds and the session
queries return no value. -/
def vendorDefault : Vendor :=
  { initOk := true, tagOk := true, queryOk := true,
    sessionId := none, sessionUrl := none }

/-- Result of one gateway operation: the outcome delivered to the caller,
the isInitialized flag after the call, and the vendor SDK calls performed. -/
structure OpResult (α : Type) where
  outcome : Outcome α
  state : Bool
  calls : List VendorCall
deriving DecidableEq, Repr

/-- The options object of initialize: projectId plus the declared but
optional enableWebViewCapture flag (src/src/definitions.ts). -/
structure InitOptions where
  projectId : Option String
  enableWebViewCapture : Option Bool
deriving DecidableEq, Repr

/-- The not-initialized rejection message shared by all native gateways. -/
def notInitMsg : String := "Clarity not initialized. Call initialize() first."

/-- The invalid project id rejection message (iOS and web). -/
def badProjectIdMsg : String :=
  "Invalid project ID format. Must be 8-16 alphanumeric characters (letters, numbers, hyphens)."

/-- The invalid tag key rejection message (iOS and web). -/
def badTagKeyMsg : String :=
  "Invalid tag key format. Must start with a letter and contain only alphanumeric characters and underscores (1-64 chars)."

/-- The invalid tag value rejection message (iOS and web). -/
def badTagValueMsg : String := "Invalid tag value. Must not exceed 1024 characters."

/-- The invalid event name rejection message (iOS and web). -/
def badEventNameMsg : String :=
  "Invalid event name format. Must start with a letter and contain only alphanumeric characters and underscores (1-64 chars)."

/-! ### iOS gateway (src/ios/Plugin/ClarityPlugin.swift)

Each method reads its arguments with call.getString (modelled by Option
String), validates, checks isInitialized, then delegates; the dispatch of
the vendor call onto the main queue is executed in place.  Messages are the
verbatim reject strings of the source; the dynamic error description
appended in the catch branches is omitted. -/

/-- initialize of ClarityPlugin.swift. -/
def iosInitialize (options : InitOptions) (isInitialized : Bool) (v : Vendor) :
    OpResult Unit :=
  match options.projectId with
  | none => ⟨.reject .invalidInput "Project ID is required", isInitialized, []⟩
  | some projectId =>
    if projectId == "" then
      ⟨.reject .invalidInput "Project ID is required", isInitialized, []⟩
    else if swiftIsValidProjectId projectId then
      if isInitialized then ⟨.resolve (), isInitialized, []⟩
      else if v.initOk then ⟨.resolve (), true, [.initializeSDK projectId]⟩
      else ⟨.reject .initializationFailure "Failed to initialize Clarity",
            isInitialized, [.initializeSDK projectId]⟩
    else ⟨.reject .invalidInput badProjectIdMsg, isInitialized, []⟩

/-- setCustomTag of ClarityPlugin.swift. -/
def iosSetCustomTag (key value : Option String) (isInitialized : Bool)
    (v : Vendor) : OpResult Unit :=
  match key with
  | none => ⟨.reject .invalidInput "Tag key is required", isInitialized, []⟩
  | some k =>
    if k == "" then ⟨.reject .invalidInput "Tag key is required", isInitialized, []⟩
    else
      match value with
      | none => ⟨.reject .invalidInput "Tag value is required", isInitialized, []⟩
      | some val =>
        if swiftIsValidTagKey k then
          if swiftIsValidTagValue val then
            if isInitialized then
              if v.tagOk then ⟨.resolve (), isInitialized, [.setCustomTag k val]⟩
              else ⟨.reject .delegateFailure "Failed to set custom tag",
                    isInitialized, [.setCustomTag k val]⟩
            else ⟨.reject .notInitialized notInitMsg, isInitialized, []⟩
          else ⟨.reject .invalidInput badTagValueMsg, isInitialized, []⟩
        else ⟨.reject .invalidInput badTagKeyMsg, isInitialized, []⟩

/-- logEvent of ClarityPlugin.swift: delegates to the vendor tag-setting
call with the literal value "true". -/
def iosLogEvent (eventName : Option String) (isInitialized : Bool)
    (v : Vendor) : OpResult Unit :=
  match eventName with
  | none => ⟨.reject .invalidInput "Event name is required", isInitialized, []⟩
  | some n =>
    if n == "" then ⟨.reject .invalidInput "Event name is required", isInitialized, []⟩
    else if swiftIsValidEventName n then
      if isInitialized then
        if v.tagOk then ⟨.resolve (), isInitialized, [.setCustomTag n "true"]⟩
        else ⟨.reject .delegateFailure "Failed to log event",
              isInitialized, [.setCustomTag n "true"]⟩
      else ⟨.reject .notInitialized notInitMsg, isInitialized, []⟩
    else ⟨.reject .invalidInput badEventNameMsg, isInitialized, []⟩

/-- getCurrentSessionId of ClarityPlugin.swift: a nil vendor result is
resolved as an explicit NSNull, modelled by none. -/
def iosGetCurrentSessionId (isInitialized : Bool) (v : Vendor) :
    OpResult (Option String) :=
  if isInitialized then
    if v.queryOk then ⟨.resolve v.sessionId, isInitialized, [.getCurrentSessionId]⟩
    else ⟨.reject .delegateFailure "Failed to get session ID",
          isInitialized, [.getCurrentSessionId]⟩
  else ⟨.reject .notInitialized notInitMsg, isInitialized, []⟩

/-- getCurrentSessionUrl of ClarityPlugin.swift. -/
def iosGetCurrentSessionUrl (isInitialized : Bool) (v : Vendor) :
    OpResult (Option String) :=
  if isInitialized then
    if v.queryOk then ⟨.resolve v.sessionUrl, isInitialized, [.getCurrentSessionUrl]⟩
    else ⟨.reject .delegateFailure "Failed to get session URL",
          isInitialized, [.getCurrentSessionUrl]⟩
  else ⟨.reject .notInitialized notInitMsg, isInitialized, []⟩

/-! ### Android gateway
(src/android/src/main/java/com/yourcompany/plugins/clarity/ClarityPlugin.java)

The Android methods perform only null / isEmpty checks on their arguments —
no format validation — then check isInitialized and delegate.  The
runOnUiThread dispatch of initialize is executed in place. -/

/-- initialize of ClarityPlugin.java: note the absence of any project id
format validation beyond the null / isEmpty check. -/
def androidInitialize (options : InitOptions) (isInitialized : Bool)
    (v : Vendor) : OpResult Unit :=
  match options.projectId with
  | none => ⟨.reject .invalidInput "Project ID is required", isInitialized, []⟩
  | some projectId =>
    if projectId == "" then
      ⟨.reject .invalidInput "Project ID is required", isInitialized, []⟩
    else if isInitialized then ⟨.resolve (), isInitialized, []⟩
    else if v.initOk then ⟨.resolve (), true, [.initializeSDK projectId]⟩
    else ⟨.reject .initializationFailure "Failed to initialize Clarity",
          isInitialized, [.initializeSDK projectId]⟩

/-- setCustomTag of ClarityPlugin.java: note that an empty value string is
rejected by the isEmpty check, and that no format validation is applied. -/
def androidSetCustomTag (key value : Option String) (isInitialized : Bool)
    (v : Vendor) : OpResult Unit :=
  match key with
  | none => ⟨.reject .invalidInput "Tag key is required", isInitialized, []⟩
  | some k =>
    if k == "" then ⟨.reject .invalidInput "Tag key is required", isInitialized, []⟩
    else
      match value with
      | none => ⟨.reject .invalidInput "Tag value is required", isInitialized, []⟩
      | some val =>
        if val == "" then
          ⟨.reject .invalidInput "Tag value is required", isInitialized, []⟩
        else if isInitialized then
          if v.tagOk then ⟨.resolve (), isInitialized, [.setCustomTag k val]⟩
          else ⟨.reject .delegateFailure "Failed to set custom tag",
                isInitialized, [.setCustomTag k val]⟩
        else ⟨.reject .notInitialized notInitMsg, isInitialized, []⟩

/-- logEvent of ClarityPlugin.java: delegates to the vendor tag-setting call
with the literal value "true"; no format validation. -/
def androidLogEvent (eventName : Option String) (isInitialized : Bool)
    (v : Vendor) : OpResult Unit :=
  match eventName with
  | none => ⟨.reject .invalidInput "Event name is required", isInitialized, []⟩
  | some n =>
    if n == "" then ⟨.reject .invalidInput "Event name is required", isInitialized, []⟩
    else if isInitialized then
      if v.tagOk then ⟨.resolve (), isInitialized, [.setCustomTag n "true"]⟩
      else ⟨.reject .delegateFailure "Failed to log event",
            isInitialized, [.setCustomTag n "true"]⟩
    else ⟨.reject .notInitialized notInitMsg, isInitialized, []⟩

/-- getCurrentSessionId of ClarityPlugin.java: the vendor string is put into
the result object verbatim, a null vendor result giving a null field. -/
def androidGetCurrentSessionId (isInitialized : Bool) (v : Vendor) :
    OpResult (Option String) :=
  if isInitialized then
    if v.queryOk then ⟨.resolve v.sessionId, isInitialized, [.getCurrentSessionId]⟩
    else ⟨.reject .delegateFailure "Failed to get session ID",
          isInitialized, [.getCurrentSessionId]⟩
  else ⟨.reject .notInitialized notInitMsg, isInitialized, []⟩

/-- getCurrentSessionUrl of ClarityPlugin.java. -/
def androidGetCurrentSessionUrl (isInitialized : Bool) (v : Vendor) :
    OpResult (Option String) :=
  if isInitialized then
    if v.queryOk then ⟨.resolve v.sessionUrl, isInitialized, [.getCurrentSessionUrl]⟩
    else ⟨.reject .delegateFailure "Failed to get session URL",
          isInitialized, [.getCurrentSessionUrl]⟩
  else ⟨.reject .notInitialized notInitMsg, isInitialized, []⟩

/-! ### Web stub (src/src/web.ts)

The web class validates with the shared validators, keeps the same
isInitialized flag, never calls a vendor SDK, and only warns.  Unlike the
native gateways it checks isInitialized before validating.  Thrown errors
are modelled as rejections. -/

/-- ClarityWeb.initialize: validates the project id, then sets the flag and
warns; no vendor call. -/
def webInitialize (options : InitOptions) (isInitialized : Bool) :
    OpResult Unit :=
  if isValidProjectId options.projectId then ⟨.resolve (), true, []⟩
  else ⟨.reject .invalidInput badProjectIdMsg, isInitialized, []⟩

/-- ClarityWeb.setCustomTag: initialization check first, then validation,
then a warning only. -/
def webSetCustomTag (key value : Option String) (isInitialized : Bool) :
    OpResult Unit :=
  if isInitialized then
    if isValidTagKey key then
      if isValidTagValue value then ⟨.resolve (), isInitialized, []⟩
      else ⟨.reject .invalidInput badTagValueMsg, isInitialized, []⟩
    else ⟨.reject .invalidInput badTagKeyMsg, isInitialized, []⟩
  else ⟨.reject .notInitialized notInitMsg, isInitialized, []⟩

/-- ClarityWeb.logEvent. -/
def webLogEvent (eventName : Option String) (isInitialized : Bool) :
    OpResult Unit :=
  if isInitialized then
    if isValidEventName eventName then ⟨.resolve (), isInitialized, []⟩
    else ⟨.reject .invalidInput badEventNameMsg, isInitialized, []⟩
  else ⟨.reject .notInitialized notInitMsg, isInitialized, []⟩

/-- ClarityWeb.getCurrentSessionId: resolves a null session id. -/
def webGetCurrentSessionId (isInitialized : Bool) : OpResult (Option String) :=
  if isInitialized then ⟨.resolve none, isInitialized, []⟩
  else ⟨.reject .notInitialized notInitMsg, isInitialized, []⟩

/-- ClarityWeb.getCurrentSessionUrl: resolves a null session url. -/
def webGetCurrentSessionUrl (isInitialized : Bool) : OpResult (Option String) :=
  if isInitialized then ⟨.resolve none, isInitialized, []⟩
  else ⟨.reject .notInitialized notInitMsg, isInitialized, []⟩

/-! ### Spec-side characterizations (section 8 of the spec)

These predicates restate, in the words of the spec, what the validators are
claimed to compute; the claim theorems compare them with the source-derived
validators above. -/

/-- The spec characterization of a valid tag key or event name: trimming
yields length 1 to 64, the first character is an ASCII letter, and the
remaining characters are ASCII letters, digits or underscores. -/
def tagKeySpec (s : String) : Bool :=
  1 ≤ (jsTrim s).length && (jsTrim s).length ≤ 64 &&
    (match jsTrim s with
     | [] => false
     | c :: rest => c.isAlpha && rest.all isTagKeyTailChar)

/-- The spec characterization of a valid project id: trimming yields length
8 to 16 and every character is an ASCII letter, digit or hyphen. -/
def projectIdSpec (s : String) : Bool :=
  8 ≤ (jsTrim s).length && (jsTrim s).length ≤ 16 && (jsTrim s).all isProjectIdChar

/-- The spec characterization of a valid tag value: present and of length
at most 1024, regardless of content. -/
def tagValueSpec (s : String) : Bool :=
  s.length ≤ 1024

/-- A vendor environment whose session queries return the empty string. -/
def vendorEmptySession : Vendor :=
  { initOk := true, tagOk := true, queryOk := true,
    sessionId := some "", sessionUrl := some "" }

/-- A vendor environment whose initialize entry point fails. -/
def vendorInitFails : Vendor :=
  { initOk := false, tagOk := true, queryOk := true,
    sessionId := none, sessionUrl := none }

/-! ### Per-operation preliminary input checks

Each native mutator runs a fixed sequence of input checks before its
initialization guard; these predicates record, per operation, exactly when
an input gets past them (read off the guard sequence of the corresponding
source method). -/

/-- The checks setCustomTag on iOS runs before its initialization guard:
key present and nonempty, value present, and both Swift validators
accept. -/
def iosTagPrecheck (key value : Option String) : Bool :=
  match key with
  | none => false
  | some k =>
    if k == "" then false
    else
      match value with
      | none => false
      | some val => swiftIsValidTagKey k && swiftIsValidTagValue val

/-- The checks logEvent on iOS runs before its initialization guard: event
name present, nonempty and accepted by the Swift validator. -/
def iosEventPrecheck (eventName : Option String) : Bool :=
  match eventName with
  | none => false
  | some n => if n == "" then false else swiftIsValidEventName n

/-- The checks setCustomTag on Android runs before its initialization
guard: key present and nonempty, value present and nonempty; no format
validation. -/
def androidTagPrecheck (key value : Option String) : Bool :=
  match key with
  | none => false
  | some k =>
    if k == "" then false
    else
      match value with
      | none => false
      | some val => !(val == "")

/-- The checks logEvent on Android runs before its initialization guard:
event name present and nonempty; no format validation. -/
def androidEventPrecheck (eventName : Option String) : Bool :=
  match eventName with
  | none => false
  | some n => !(n == "")

/-! ### Helper lemmas -/

/-- The anchored tag key pattern is the length-and-character-class
description used by the spec. -/
theorem matchesTagKeyPattern_spec (t : List Char) :
    matchesTagKeyPattern t
      = (1 ≤ t.length && t.length ≤ 64 &&
          (match t with
           | [] => false
           | c :: rest => c.isAlpha && rest.all isTagKeyTailChar)) := by
  cases t with
  | nil => rfl
  | cons c rest =>
      rw [Bool.eq_iff_iff]
      simp only [matchesTagKeyPattern, Bool.and_eq_true, decide_eq_true_eq,
        List.length_cons]
      constructor
      · rintro ⟨⟨hA, hlen⟩, hall⟩
        exact ⟨⟨by omega, by omega⟩, hA, hall⟩
      · rintro ⟨⟨h1, h2⟩, hA, hall⟩
        exact ⟨⟨hA, by omega⟩, hall⟩

/-- A string accepted by the Swift tag key validator is not empty. -/
theorem swiftIsValidTagKey_ne_empty (k : String)
    (h : swiftIsValidTagKey k = true) : (k == "") = false := by
  cases hbe : (k == "") with
  | false => rfl
  | true =>
      have hk : k = "" := by simpa using hbe
      subst hk
      exact absurd h (by decide)

/-- A string accepted by the shared project id validator is nonempty and
accepted by the Swift project id validator. -/
theorem validProjectId_elim (pid : String)
    (h : isValidProjectId (some pid) = true) :
    (pid == "") = false ∧ swiftIsValidProjectId pid = true := by
  cases hbe : (pid == "") with
  | true =>
      exfalso
      have hp : pid = "" := by simpa using hbe
      subst hp
      exact absurd h (by decide)
  | false =>
      refine ⟨rfl, ?_⟩
      simp only [isValidProjectId] at h
      rw [hbe] at h
      simpa [swiftIsValidProjectId] using h

/-- setCustomTag on iOS never changes the initialization flag. -/
theorem iosSetCustomTag_state (key value : Option String) (s : Bool)
    (v : Vendor) : (iosSetCustomTag key value s v).state = s := by
  unfold iosSetCustomTag
  rcases key with _ | k
  · rfl
  · rcases value with _ | val <;> dsimp only
    · split <;> rfl
    · repeat' split
      all_goals rfl

/-- logEvent on iOS never changes the initialization flag. -/
theorem iosLogEvent_state (ev : Option String) (s : Bool) (v : Vendor) :
    (iosLogEvent ev s v).state = s := by
  unfold iosLogEvent
  rcases ev with _ | n
  · rfl
  · dsimp only
    repeat' split
    all_goals rfl

/-- getCurrentSessionId on iOS never changes the initialization flag. -/
theorem iosGetCurrentSessionId_state (s : Bool) (v : Vendor) :
    (iosGetCurrentSessionId s v).state = s := by
  unfold iosGetCurrentSessionId
  repeat' split
  all_goals rfl

/-- getCurrentSessionUrl on iOS never changes the initialization flag. -/
theorem iosGetCurrentSessionUrl_state (s : Bool) (v : Vendor) :
    (iosGetCurrentSessionUrl s v).state = s := by
  unfold iosGetCurrentSessionUrl
  repeat' split
  all_goals rfl

/-- setCustomTag on Android never changes the initialization flag. -/
theorem androidSetCustomTag_state (key value : Option String) (s : Bool)
    (v : Vendor) : (androidSetCustomTag key value s v).state = s := by
  unfold androidSetCustomTag
  rcases key with _ | k
  · rfl
  · rcases value with _ | val <;> dsimp only
    · split <;> rfl
    · repeat' split
      all_goals rfl

/-- logEvent on Android never changes the initialization flag. -/
theorem androidLogEvent_state (ev : Option String) (s : Bool) (v : Vendor) :
    (androidLogEvent ev s v).state = s := by
  unfold androidLogEvent
  rcases ev with _ | n
  · rfl
  · dsimp only
    repeat' split
    all_goals rfl

/-- getCurrentSessionId on Android never changes the initialization flag. -/
theorem androidGetCurrentSessionId_state (s : Bool) (v : Vendor) :
    (androidGetCurrentSessionId s v).state = s := by
  unfold androidGetCurrentSessionId
  repeat' split
  all_goals rfl

/-- getCurrentSessionUrl on Android never changes the initialization flag. -/
theorem androidGetCurrentSessionUrl_state (s : Bool) (v : Vendor) :
    (androidGetCurrentSessionUrl s v).state = s := by
  unfold androidGetCurrentSessionUrl
  repeat' split
  all_goals rfl

/-- setCustomTag on web never changes the initialization flag. -/
theorem webSetCustomTag_state (key value : Option String) (s : Bool) :
    (webSetCustomTag key value s).state = s := by
  unfold webSetCustomTag
  repeat' split
  all_goals rfl

/-- logEvent on web never changes the initialization flag. -/
theorem webLogEvent_state (ev : Option String) (s : Bool) :
    (webLogEvent ev s).state = s := by
  unfold webLogEvent
  repeat' split
  all_goals rfl

/-- getCurrentSessionId on web never changes the initialization flag. -/
theorem webGetCurrentSessionId_state (s : Bool) :
    (webGetCurrentSessionId s).state = s := by
  unfold webGetCurrentSessionId
  split <;> rfl

/-- getCurrentSessionUrl on web never changes the initialization flag. -/
theorem webGetCurrentSessionUrl_state (s : Bool) :
    (webGetCurrentSessionUrl s).state = s := by
  unfold webGetCurrentSessionUrl
  split <;> rfl


/-- setCustomTag on iOS before initialization always rejects without any vendor call. -/
theorem iosSetCustomTag_uninit (key value : Option String) (v : Vendor) :
    (iosSetCustomTag key value false v).outcome.isReject = true
    ∧ (iosSetCustomTag key value false v).calls = [] := by
  unfold iosSetCustomTag
  rcases key with _ | k
  · exact ⟨rfl, rfl⟩
  · rcases value with _ | val <;> dsimp only
    · constructor <;> (split <;> rfl)
    · constructor <;>
        (repeat' split
         all_goals simp_all [Outcome.isReject])

/-- logEvent on iOS before initialization always rejects without any vendor call. -/
theorem iosLogEvent_uninit (ev : Option String) (v : Vendor) :
    (iosLogEvent ev false v).outcome.isReject = true
    ∧ (iosLogEvent ev false v).calls = [] := by
  unfold iosLogEvent
  rcases ev with _ | n
  · exact ⟨rfl, rfl⟩
  · dsimp only
    constructor <;>
      (repeat' split
       all_goals simp_all [Outcome.isReject])

/-- setCustomTag on Android before initialization always rejects without any vendor call. -/
theorem androidSetCustomTag_uninit (key value : Option String) (v : Vendor) :
    (androidSetCustomTag key value false v).outcome.isReject = true
    ∧ (androidSetCustomTag key value false v).calls = [] := by
  unfold androidSetCustomTag
  rcases key with _ | k
  · exact ⟨rfl, rfl⟩
  · rcases value with _ | val <;> dsimp only
    · constructor <;> (split <;> rfl)
    · constructor <;>
        (repeat' split
         all_goals simp_all [Outcome.isReject])

/-- logEvent on Android before initialization always rejects without any vendor call. -/
theorem androidLogEvent_uninit (ev : Option String) (v : Vendor) :
    (androidLogEvent ev false v).outcome.isReject = true
    ∧ (androidLogEvent ev false v).calls = [] := by
  unfold androidLogEvent
  rcases ev with _ | n
  · exact ⟨rfl, rfl⟩
  · dsimp only
    constructor <;>
      (repeat' split
       all_goals simp_all [Outcome.isReject])

/-- Uninitialized iOS setCustomTag rejects NotInitialized exactly when the input passes its checks, InvalidInput otherwise. -/
theorem iosSetCustomTag_uninit_class (key value : Option String) (v : Vendor) :
    outcomeClass (iosSetCustomTag key value false v).outcome
      = (if iosTagPrecheck key value then some ErrKind.notInitialized
         else some ErrKind.invalidInput) := by
  rcases key with _ | k
  · rfl
  · rcases value with _ | val
    · cases hke : (k == "") <;>
        simp [iosSetCustomTag, iosTagPrecheck, hke, outcomeClass]
    · cases hke : (k == "") <;>
        cases hvk : swiftIsValidTagKey k <;>
          cases hvv : swiftIsValidTagValue val <;>
            simp [iosSetCustomTag, iosTagPrecheck, hke, hvk, hvv, outcomeClass]

/-- Uninitialized iOS logEvent rejects NotInitialized exactly when the input passes its checks, InvalidInput otherwise. -/
theorem iosLogEvent_uninit_class (ev : Option String) (v : Vendor) :
    outcomeClass (iosLogEvent ev false v).outcome
      = (if iosEventPrecheck ev then some ErrKind.notInitialized
         else some ErrKind.invalidInput) := by
  rcases ev with _ | n
  · rfl
  · cases hne : (n == "") <;>
      cases hvn : swiftIsValidEventName n <;>
        simp [iosLogEvent, iosEventPrecheck, hne, hvn, outcomeClass]

/-- Uninitialized Android setCustomTag rejects NotInitialized exactly when the input passes its checks, InvalidInput otherwise. -/
theorem androidSetCustomTag_uninit_class (key value : Option String) (v : Vendor) :
    outcomeClass (androidSetCustomTag key value false v).outcome
      = (if androidTagPrecheck key value then some ErrKind.notInitialized
         else some ErrKind.invalidInput) := by
  rcases key with _ | k
  · rfl
  · rcases value with _ | val
    · cases hke : (k == "") <;>
        simp [androidSetCustomTag, androidTagPrecheck, hke, outcomeClass]
    · cases hke : (k == "") <;>
        cases hve : (val == "") <;>
          simp [androidSetCustomTag, androidTagPrecheck, hke, hve, outcomeClass]

/-- Uninitialized Android logEvent rejects NotInitialized exactly when the input passes its checks, InvalidInput otherwise. -/
theorem androidLogEvent_uninit_class (ev : Option String) (v : Vendor) :
    outcomeClass (androidLogEvent ev false v).outcome
      = (if androidEventPrecheck ev then some ErrKind.notInitialized
         else some ErrKind.invalidInput) := by
  rcases ev with _ | n
  · rfl
  · cases hne : (n == "") <;>
      simp [androidLogEvent, androidEventPrecheck, hne, outcomeClass]

/-- initialize on iOS either leaves the flag unchanged or resolves and sets it. -/
theorem iosInitialize_state_cases (opts : InitOptions) (s : Bool) (v : Vendor) :
    (iosInitialize opts s v).state = s
    ∨ ((iosInitialize opts s v).outcome = .resolve ()
        ∧ (iosInitialize opts s v).state = true) := by
  unfold iosInitialize
  rcases opts with ⟨_ | pid, b⟩
  · exact Or.inl rfl
  · dsimp only
    repeat' split
    all_goals first | exact Or.inl rfl | exact Or.inr ⟨rfl, rfl⟩

/-- initialize on Android either leaves the flag unchanged or resolves and sets it. -/
theorem androidInitialize_state_cases (opts : InitOptions) (s : Bool) (v : Vendor) :
    (androidInitialize opts s v).state = s
    ∨ ((androidInitialize opts s v).outcome = .resolve ()
        ∧ (androidInitialize opts s v).state = true) := by
  unfold androidInitialize
  rcases opts with ⟨_ | pid, b⟩
  · exact Or.inl rfl
  · dsimp only
    repeat' split
    all_goals first | exact Or.inl rfl | exact Or.inr ⟨rfl, rfl⟩

/-- initialize on web either leaves the flag unchanged or resolves and sets it. -/
theorem webInitialize_state_cases (opts : InitOptions) (s : Bool) :
    (webInitialize opts s).state = s
    ∨ ((webInitialize opts s).outcome = .resolve ()
        ∧ (webInitialize opts s).state = true) := by
  unfold webInitialize
  split
  · exact Or.inr ⟨rfl, rfl⟩
  · exact Or.inl rfl

/-- initialize on iOS never resets the flag once it is set. -/
theorem iosInitialize_state_true (opts : InitOptions) (v : Vendor) :
    (iosInitialize opts true v).state = true := by
  unfold iosInitialize
  rcases opts with ⟨_ | pid, b⟩
  · rfl
  · dsimp only
    repeat' split
    all_goals rfl

/-- initialize on Android never resets the flag once it is set. -/
theorem androidInitialize_state_true (opts : InitOptions) (v : Vendor) :
    (androidInitialize opts true v).state = true := by
  unfold androidInitialize
  rcases opts with ⟨_ | pid, b⟩
  · rfl
  · dsimp only
    repeat' split
    all_goals rfl

/-- initialize on web never resets the flag once it is set. -/
theorem webInitialize_state_true (opts : InitOptions) :
    (webInitialize opts true).state = true := by
  unfold webInitialize
  split <;> rfl

/-- When the vendor initialize entry point fails, iOS initialize leaves the flag unset. -/
theorem iosInitialize_vendorFailure (opts : InitOptions) (v : Vendor)
    (hfail : v.initOk = false) :
    (iosInitialize opts false v).state = false := by
  unfold iosInitialize
  rcases opts with ⟨_ | pid, b⟩
  · rfl
  · dsimp only
    repeat' split
    all_goals simp_all

/-- When the vendor initialize entry point fails, Android initialize leaves the flag unset. -/
theorem androidInitialize_vendorFailure (opts : InitOptions) (v : Vendor)
    (hfail : v.initOk = false) :
    (androidInitialize opts false v).state = false := by
  unfold androidInitialize
  rcases opts with ⟨_ | pid, b⟩
  · rfl
  · dsimp only
    repeat' split
    all_goals simp_all


/-- On iOS, logEvent in the initialized state is observationally the tag-setting call with value "true". -/
theorem iosLogEvent_observes_tag (n : String) (v : Vendor) :
    outcomeClass (iosLogEvent (some n) true v).outcome
      = outcomeClass (iosSetCustomTag (some n) (some "true") true v).outcome
    ∧ (iosLogEvent (some n) true v).state
      = (iosSetCustomTag (some n) (some "true") true v).state
    ∧ (iosLogEvent (some n) true v).calls
      = (iosSetCustomTag (some n) (some "true") true v).calls := by
  have htv : swiftIsValidTagValue "true" = true := by decide
  by_cases he : n = ""
  · subst he
    exact ⟨rfl, rfl, rfl⟩
  · have hbe : (n == "") = false := beq_eq_false_iff_ne.mpr he
    cases hvk : swiftIsValidTagKey n with
    | false =>
        have hve : swiftIsValidEventName n = false := hvk
        simp [iosLogEvent, iosSetCustomTag, hbe, hvk, hve, outcomeClass]
    | true =>
        have hve : swiftIsValidEventName n = true := hvk
        cases htag : v.tagOk <;>
          simp [iosLogEvent, iosSetCustomTag, hbe, hvk, hve, htv, htag,
            outcomeClass]

/-- On Android, logEvent in the initialized state is observationally the tag-setting call with value "true". -/
theorem androidLogEvent_observes_tag (n : String) (v : Vendor) :
    outcomeClass (androidLogEvent (some n) true v).outcome
      = outcomeClass (androidSetCustomTag (some n) (some "true") true v).outcome
    ∧ (androidLogEvent (some n) true v).state
      = (androidSetCustomTag (some n) (some "true") true v).state
    ∧ (androidLogEvent (some n) true v).calls
      = (androidSetCustomTag (some n) (some "true") true v).calls := by
  by_cases he : n = ""
  · subst he
    exact ⟨rfl, rfl, rfl⟩
  · have hbe : (n == "") = false := beq_eq_false_iff_ne.mpr he
    cases htag : v.tagOk <;>
      simp [androidLogEvent, androidSetCustomTag, hbe, htag, outcomeClass]

/-- On web, logEvent in the initialized state is observationally the tag-setting call with value "true". -/
theorem webLogEvent_observes_tag (n : String) :
    outcomeClass (webLogEvent (some n) true).outcome
      = outcomeClass (webSetCustomTag (some n) (some "true") true).outcome
    ∧ (webLogEvent (some n) true).state
      = (webSetCustomTag (some n) (some "true") true).state
    ∧ (webLogEvent (some n) true).calls
      = (webSetCustomTag (some n) (some "true") true).calls := by
  have htv : isValidTagValue (some "true") = true := by decide
  have hve : isValidEventName (some n) = isValidTagKey (some n) := rfl
  cases hv : isValidTagKey (some n) <;>
    simp [webLogEvent, webSetCustomTag, hv, hve, htv, outcomeClass]


/-- Claim C5: for every string s, the shared tag key validator accepts s
exactly when trimming s yields a string of length 1 to 64 whose first
character is an ASCII letter and whose remaining characters are ASCII
letters, digits or underscores; and the event name validator agrees with
the tag key validator on every input. -/
theorem c5_tagKey_characterization :
    (∀ s : String, isValidTagKey (some s) = tagKeySpec s)
    ∧ (∀ x : Option String, isValidEventName x = isValidTagKey x) := by
  constructor
  · intro s
    by_cases he : s = ""
    · subst he
      decide
    · have hbe : (s == "") = false := beq_eq_false_iff_ne.mpr he
      simp only [isValidTagKey, hbe, Bool.false_eq_true, if_false]
      exact matchesTagKeyPattern_spec (jsTrim s)
  · intro x
    rfl

/-- Claim C6: the shared project id validator rejects an absent input, and
for every string s it accepts s exactly when trimming s yields a string of
length 8 to 16 composed only of ASCII letters, digits and hyphens. -/
theorem c6_projectId_characterization :
    isValidProjectId none = false
    ∧ (∀ s : String, isValidProjectId (some s) = projectIdSpec s) := by
  refine ⟨rfl, fun s => ?_⟩
  by_cases he : s = ""
  · subst he
    decide
  · have hbe : (s == "") = false := beq_eq_false_iff_ne.mpr he
    simp only [isValidProjectId, hbe, Bool.false_eq_true, if_false]
    rfl

/-- Claim C7: the shared tag value validator accepts exactly the present
strings of length at most 1024, so the empty string is a valid tag value,
and iOS and web setCustomTag with a valid key and an empty value after
initialization resolve; but the Android gateway diverges, rejecting the
empty value as missing. -/
theorem c7_tagValue_empty_divergence :
    (∀ s : String, isValidTagValue (some s) = tagValueSpec s)
    ∧ isValidTagValue none = false
    ∧ isValidTagValue (some "") = true
    ∧ (iosSetCustomTag (some "userType") (some "") true vendorDefault).outcome
        = .resolve ()
    ∧ (webSetCustomTag (some "userType") (some "") true).outcome = .resolve ()
    ∧ (androidSetCustomTag (some "userType") (some "") true vendorDefault).outcome
        = .reject .invalidInput "Tag value is required" :=
  ⟨fun _ => rfl, rfl, by decide, by decide, by decide, by decide⟩

/-- Claim C2: the string "short" fails the project id validator, and iOS
and web initialize reject it as InvalidInput without any vendor call; but
the Android gateway diverges, resolving initialize with projectId "short"
and passing it to the vendor SDK. -/
theorem c2_android_initialize_divergence :
    isValidProjectId (some "short") = false
    ∧ (iosInitialize ⟨some "short", none⟩ false vendorDefault).outcome
        = .reject .invalidInput badProjectIdMsg
    ∧ (webInitialize ⟨some "short", none⟩ false).outcome
        = .reject .invalidInput badProjectIdMsg
    ∧ androidInitialize ⟨some "short", none⟩ false vendorDefault
        = ⟨.resolve (), true, [.initializeSDK "short"]⟩ := by
  decide

/-- Claim C10: the declared enableWebViewCapture option is never read by
any implementation: two initialize calls differing only in that option
produce identical outcomes, identical resulting state and identical vendor
calls on every platform. -/
theorem c10_enableWebViewCapture_unread (pid : Option String)
    (b1 b2 : Option Bool) (s : Bool) (v : Vendor) :
    iosInitialize ⟨pid, b1⟩ s v = iosInitialize ⟨pid, b2⟩ s v
    ∧ androidInitialize ⟨pid, b1⟩ s v = androidInitialize ⟨pid, b2⟩ s v
    ∧ webInitialize ⟨pid, b1⟩ s = webInitialize ⟨pid, b2⟩ s :=
  ⟨rfl, rfl, rfl⟩

/-- Claim C3: once the flag is set, initialize with any valid project id
resolves, performs no vendor call, and leaves the flag set, on all three
platforms. -/
theorem c3_initialize_idempotent (pid : String) (b : Option Bool) (v : Vendor)
    (h : isValidProjectId (some pid) = true) :
    iosInitialize ⟨some pid, b⟩ true v = ⟨.resolve (), true, []⟩
    ∧ androidInitialize ⟨some pid, b⟩ true v = ⟨.resolve (), true, []⟩
    ∧ webInitialize ⟨some pid, b⟩ true = ⟨.resolve (), true, []⟩ := by
  obtain ⟨hne, hvalid⟩ := validProjectId_elim pid h
  refine ⟨?_, ?_, ?_⟩
  · simp [iosInitialize, hne, hvalid]
  · simp [androidInitialize, hne]
  · simp [webInitialize, h]

/-- Witness for claim C3 at the valid project id "abcdefgh". -/
theorem c3_initialize_idempotent_witness :
    isValidProjectId (some "abcdefgh") = true
    ∧ (iosInitialize ⟨some "abcdefgh", none⟩ true vendorDefault
          = ⟨.resolve (), true, []⟩
        ∧ androidInitialize ⟨some "abcdefgh", none⟩ true vendorDefault
          = ⟨.resolve (), true, []⟩
        ∧ webInitialize ⟨some "abcdefgh", none⟩ true = ⟨.resolve (), true, []⟩) :=
  ⟨by decide, c3_initialize_idempotent "abcdefgh" none vendorDefault (by decide)⟩

/-- Counterexample for claim C8: when the vendor SDK returns an empty
string for the session queries, the initialized gateways resolve with that
empty string, not with the explicit no-value result claimed. -/
theorem c8_counterexample :
    (iosGetCurrentSessionUrl true vendorEmptySession).outcome = .resolve (some "")
    ∧ (androidGetCurrentSessionUrl true vendorEmptySession).outcome
        = .resolve (some "")
    ∧ (iosGetCurrentSessionId true vendorEmptySession).outcome = .resolve (some "")
    ∧ (androidGetCurrentSessionId true vendorEmptySession).outcome
        = .resolve (some "")
    ∧ (Outcome.resolve (some "") : Outcome (Option String))
        ≠ .resolve (none : Option String) := by
  decide

/-- Claim C8 (amended): in the initialized state the session queries return
the vendor result verbatim: a missing vendor result is resolved as an
explicit null and an empty vendor string as the empty string, so callers
can distinguish the two. -/
theorem c8_session_passthrough (v : Vendor) (hq : v.queryOk = true) :
    iosGetCurrentSessionId true v
      = ⟨.resolve v.sessionId, true, [.getCurrentSessionId]⟩
    ∧ iosGetCurrentSessionUrl true v
      = ⟨.resolve v.sessionUrl, true, [.getCurrentSessionUrl]⟩
    ∧ androidGetCurrentSessionId true v
      = ⟨.resolve v.sessionId, true, [.getCurrentSessionId]⟩
    ∧ androidGetCurrentSessionUrl true v
      = ⟨.resolve v.sessionUrl, true, [.getCurrentSessionUrl]⟩ := by
  simp [iosGetCurrentSessionId, iosGetCurrentSessionUrl,
    androidGetCurrentSessionId, androidGetCurrentSessionUrl, hq]

/-- Witness for claim C8 (amended) at a vendor returning no session data. -/
theorem c8_session_passthrough_witness :
    vendorDefault.queryOk = true
    ∧ (iosGetCurrentSessionId true vendorDefault
          = ⟨.resolve none, true, [.getCurrentSessionId]⟩
        ∧ iosGetCurrentSessionUrl true vendorDefault
          = ⟨.resolve none, true, [.getCurrentSessionUrl]⟩
        ∧ androidGetCurrentSessionId true vendorDefault
          = ⟨.resolve none, true, [.getCurrentSessionId]⟩
        ∧ androidGetCurrentSessionUrl true vendorDefault
          = ⟨.resolve none, true, [.getCurrentSessionUrl]⟩) :=
  ⟨rfl, c8_session_passthrough vendorDefault rfl⟩

/-- Claim C4: for every event name n, logEvent in the initialized state is
observably equivalent to setCustomTag with key n and the literal value
"true": same rejection class or success, same resulting state, and the
same vendor tag-setting call, on all three platforms. -/
theorem c4_logEvent_equiv_setCustomTag (n : String) (v : Vendor) :
    (outcomeClass (iosLogEvent (some n) true v).outcome
        = outcomeClass (iosSetCustomTag (some n) (some "true") true v).outcome
      ∧ (iosLogEvent (some n) true v).state
        = (iosSetCustomTag (some n) (some "true") true v).state
      ∧ (iosLogEvent (some n) true v).calls
        = (iosSetCustomTag (some n) (some "true") true v).calls)
    ∧ (outcomeClass (androidLogEvent (some n) true v).outcome
        = outcomeClass (androidSetCustomTag (some n) (some "true") true v).outcome
      ∧ (androidLogEvent (some n) true v).state
        = (androidSetCustomTag (some n) (some "true") true v).state
      ∧ (androidLogEvent (some n) true v).calls
        = (androidSetCustomTag (some n) (some "true") true v).calls)
    ∧ (outcomeClass (webLogEvent (some n) true).outcome
        = outcomeClass (webSetCustomTag (some n) (some "true") true).outcome
      ∧ (webLogEvent (some n) true).state
        = (webSetCustomTag (some n) (some "true") true).state
      ∧ (webLogEvent (some n) true).calls
        = (webSetCustomTag (some n) (some "true") true).calls) :=
  ⟨iosLogEvent_observes_tag n v, androidLogEvent_observes_tag n v,
    webLogEvent_observes_tag n⟩

/-- Claim C1 (amended): in the uninitialized state every one of the four
non-initialize operations fails, performs no vendor call and leaves the
state unchanged, on all three platforms; the argument-free getters and all
web operations fail with NotInitialized, and each native mutator fails with
NotInitialized exactly when its input passes the preliminary input checks
of that operation, and with InvalidInput otherwise, because iOS and Android
validate input before the initialization check. -/
theorem c1_uninitialized_gating
    (key value ev : Option String) (v : Vendor) :
    iosGetCurrentSessionId false v = ⟨.reject .notInitialized notInitMsg, false, []⟩
    ∧ iosGetCurrentSessionUrl false v = ⟨.reject .notInitialized notInitMsg, false, []⟩
    ∧ androidGetCurrentSessionId false v = ⟨.reject .notInitialized notInitMsg, false, []⟩
    ∧ androidGetCurrentSessionUrl false v = ⟨.reject .notInitialized notInitMsg, false, []⟩
    ∧ webGetCurrentSessionId false = ⟨.reject .notInitialized notInitMsg, false, []⟩
    ∧ webGetCurrentSessionUrl false = ⟨.reject .notInitialized notInitMsg, false, []⟩
    ∧ webSetCustomTag key value false = ⟨.reject .notInitialized notInitMsg, false, []⟩
    ∧ webLogEvent ev false = ⟨.reject .notInitialized notInitMsg, false, []⟩
    ∧ (iosSetCustomTag key value false v).state = false
    ∧ (iosSetCustomTag key value false v).calls = []
    ∧ outcomeClass (iosSetCustomTag key value false v).outcome
        = (if iosTagPrecheck key value then some ErrKind.notInitialized
           else some ErrKind.invalidInput)
    ∧ (iosLogEvent ev false v).state = false
    ∧ (iosLogEvent ev false v).calls = []
    ∧ outcomeClass (iosLogEvent ev false v).outcome
        = (if iosEventPrecheck ev then some ErrKind.notInitialized
           else some ErrKind.invalidInput)
    ∧ (androidSetCustomTag key value false v).state = false
    ∧ (androidSetCustomTag key value false v).calls = []
    ∧ outcomeClass (androidSetCustomTag key value false v).outcome
        = (if androidTagPrecheck key value then some ErrKind.notInitialized
           else some ErrKind.invalidInput)
    ∧ (androidLogEvent ev false v).state = false
    ∧ (androidLogEvent ev false v).calls = []
    ∧ outcomeClass (androidLogEvent ev false v).outcome
        = (if androidEventPrecheck ev then some ErrKind.notInitialized
           else some ErrKind.invalidInput) :=
  ⟨rfl, rfl, rfl, rfl, rfl, rfl, rfl, rfl,
    iosSetCustomTag_state key value false v,
    (iosSetCustomTag_uninit key value v).2,
    iosSetCustomTag_uninit_class key value v,
    iosLogEvent_state ev false v,
    (iosLogEvent_uninit ev v).2,
    iosLogEvent_uninit_class ev v,
    androidSetCustomTag_state key value false v,
    (androidSetCustomTag_uninit key value v).2,
    androidSetCustomTag_uninit_class key value v,
    androidLogEvent_state ev false v,
    (androidLogEvent_uninit ev v).2,
    androidLogEvent_uninit_class ev v⟩

/-- Counterexample for claim C1 as stated: on iOS, setCustomTag invoked
before initialization with the invalid key "1type" fails with InvalidInput,
not NotInitialized, because validation runs before the initialization
check. -/
theorem c1_counterexample :
    (iosSetCustomTag (some "1type") (some "x") false vendorDefault).outcome
      = .reject .invalidInput badTagKeyMsg
    ∧ outcomeClass
        (iosSetCustomTag (some "1type") (some "x") false vendorDefault).outcome
      ≠ some ErrKind.notInitialized := by
  decide

/-- Claim C9: for every vendor behavior, the initialization flag only moves
from unset to set, and only through a resolving initialize: no other
operation changes it, no operation resets it, and when the vendor
initialize entry point fails the flag stays unset. -/
theorem c9_state_machine (key value ev : Option String) (opts : InitOptions)
    (s : Bool) (v : Vendor) :
    (iosSetCustomTag key value s v).state = s
    ∧ (iosLogEvent ev s v).state = s
    ∧ (iosGetCurrentSessionId s v).state = s
    ∧ (iosGetCurrentSessionUrl s v).state = s
    ∧ (androidSetCustomTag key value s v).state = s
    ∧ (androidLogEvent ev s v).state = s
    ∧ (androidGetCurrentSessionId s v).state = s
    ∧ (androidGetCurrentSessionUrl s v).state = s
    ∧ (webSetCustomTag key value s).state = s
    ∧ (webLogEvent ev s).state = s
    ∧ (webGetCurrentSessionId s).state = s
    ∧ (webGetCurrentSessionUrl s).state = s
    ∧ (iosInitialize opts true v).state = true
    ∧ (androidInitialize opts true v).state = true
    ∧ (webInitialize opts true).state = true
    ∧ ((iosInitialize opts s v).state = s
        ∨ ((iosInitialize opts s v).outcome = .resolve ()
            ∧ (iosInitialize opts s v).state = true))
    ∧ ((androidInitialize opts s v).state = s
        ∨ ((androidInitialize opts s v).outcome = .resolve ()
            ∧ (androidInitialize opts s v).state = true))
    ∧ ((webInitialize opts s).state = s
        ∨ ((webInitialize opts s).outcome = .resolve ()
            ∧ (webInitialize opts s).state = true))
    ∧ (v.initOk = false → (iosInitialize opts false v).state = false)
    ∧ (v.initOk = false → (androidInitialize opts false v).state = false) :=
  ⟨iosSetCustomTag_state key value s v,
    iosLogEvent_state ev s v,
    iosGetCurrentSessionId_state s v,
    iosGetCurrentSessionUrl_state s v,
    androidSetCustomTag_state key value s v,
    androidLogEvent_state ev s v,
    androidGetCurrentSessionId_state s v,
    androidGetCurrentSessionUrl_state s v,
    webSetCustomTag_state key value s,
    webLogEvent_state ev s,
    webGetCurrentSessionId_state s,
    webGetCurrentSessionUrl_state s,
    iosInitialize_state_true opts v,
    androidInitialize_state_true opts v,
    webInitialize_state_true opts,
    iosInitialize_state_cases opts s v,
    androidInitialize_state_cases opts s v,
    webInitialize_state_cases opts s,
    fun hfail => iosInitialize_vendorFailure opts v hfail,
    fun hfail => androidInitialize_vendorFailure opts v hfail⟩

/-- Witness for claim C9 at a vendor whose initialize entry point fails. -/
theorem c9_state_machine_witness :
    (iosSetCustomTag (some "userType") (some "x") true vendorInitFails).state = true
    ∧ (iosInitialize ⟨some "abcdefgh", none⟩ false vendorInitFails).state = false
    ∧ (androidInitialize ⟨some "abcdefgh", none⟩ false vendorInitFails).state
        = false := by
  have h := c9_state_machine (some "userType") (some "x") (some "purchase")
    ⟨some "abcdefgh", none⟩ true vendorInitFails
  obtain ⟨h1, -, -, -, -, -, -, -, -, -, -, -, -, -, -, -, -, -, h2, h3⟩ := h
  exact ⟨h1, h2 rfl, h3 rfl⟩

end ClarityPlugin
